import Mathlib

/-!
Shallow embedding of the pybind11 binding shims of the repository
(ctp_pybind.cpp, nsq_pybind.cpp, exanic_pybind.cpp).

The shims contain no algorithmic logic of their own: they null-check an
opaque vendor handle, copy C strings into fixed-size char arrays, convert
char arrays back to strings, build argument vectors for vendor calls, and
dispatch virtual callbacks either to a dynamically supplied override or to
the vendor base class.  The vendor SDK itself (CTP, NSQ, ExaNIC) is closed
source; every vendor entry point is therefore modelled as an oracle
(a parameter supplying the vendor's return value) and each wrapper method
additionally returns the list of vendor calls it performs, so that
"calls no vendor function" and "calls the vendor exactly once with these
arguments" are provable statements.

C char arrays are modelled as `List Nat` (byte values, 0 is NUL);
`char` pointers received from Python as `std.string` are modelled the same
way.  C `double` values are only ever passed through, never computed with,
so they are carried by the abbreviation `CDouble`.
-/

/-- Byte-level model of a C char array or a std.string value: a list of
byte values, where 0 is the NUL byte. -/
abbrev CStr := List Nat

/-- C doubles are only passed through by the bindings (no floating-point
arithmetic occurs anywhere in the repository), so their carrier is opaque
to every theorem below; `Int` is used as the carrier type. -/
abbrev CDouble := Int

/-- Construction of a std.string from a char array (the `std.string(f.Field)`
pattern of the getters): the bytes up to the first NUL.  When the array
holds no NUL byte the C++ constructor reads past the array (undefined
behaviour); the model then yields the whole array, i.e. the bytes that are
certainly read before the out-of-bounds access starts. -/
def stdStringOfCStr (a : CStr) : CStr :=
  a.takeWhile (fun c => c != 0)

/-- C `strncpy(dest, src, n)` acting on a char array `dest`: at most `n`
bytes of `src` (stopping at the first NUL of `src`) are copied, the copied
part is NUL-padded up to `n` bytes when `src` is shorter, and the bytes of
`dest` beyond index `n-1` are left unchanged.  No NUL terminator is added
when `src` holds `n` or more bytes before its first NUL. -/
def strncpyArr (dest src : CStr) (n : Nat) : CStr :=
  let s := src.takeWhile (fun c => c != 0)
  let copied := s.take n
  (copied ++ List.replicate (n - copied.length) 0) ++ dest.drop n

/-- Helper `copy_cstr(dest, dest_size, src)` of nsq_pybind.cpp: zero the
whole array, then `strncpy` at most `dest_size - 1` bytes, so the last byte
always stays NUL. -/
def copy_cstr (dest src : CStr) : CStr :=
  let zeroed := List.replicate dest.length 0
  strncpyArr zeroed src (dest.length - 1)

/-- Semantics of the PYBIND11_OVERLOAD macro: when a dynamically supplied
override exists it is called, otherwise the vendor base-class member. -/
def PYBIND11_OVERLOAD {α : Type} (override : Option α) (base : α) : α :=
  override.getD base

namespace Ctp

/-- CThostFtdcReqUserLoginField, the three fields bound in ctp_pybind.cpp.
The array sizes are fixed by the vendor header; in the model the size of a
field is the length of its list. -/
structure CThostFtdcReqUserLoginField where
  BrokerID : CStr
  UserID : CStr
  Password : CStr
  deriving DecidableEq

/-- Setter bound for `BrokerID`: `strncpy(f.BrokerID, v.c_str(), sizeof(f.BrokerID))`. -/
def CThostFtdcReqUserLoginField.setBrokerID (f : CThostFtdcReqUserLoginField)
    (v : CStr) : CThostFtdcReqUserLoginField :=
  { f with BrokerID := strncpyArr f.BrokerID v f.BrokerID.length }

/-- Setter bound for `UserID`: `strncpy(f.UserID, v.c_str(), sizeof(f.UserID))`. -/
def CThostFtdcReqUserLoginField.setUserID (f : CThostFtdcReqUserLoginField)
    (v : CStr) : CThostFtdcReqUserLoginField :=
  { f with UserID := strncpyArr f.UserID v f.UserID.length }

/-- Setter bound for `Password`: `strncpy(f.Password, v.c_str(), sizeof(f.Password))`. -/
def CThostFtdcReqUserLoginField.setPassword (f : CThostFtdcReqUserLoginField)
    (v : CStr) : CThostFtdcReqUserLoginField :=
  { f with Password := strncpyArr f.Password v f.Password.length }

/-- Getter bound for `BrokerID`: `std.string(f.BrokerID)`. -/
def CThostFtdcReqUserLoginField.getBrokerID (f : CThostFtdcReqUserLoginField) : CStr :=
  stdStringOfCStr f.BrokerID

/-- Getter bound for `UserID`: `std.string(f.UserID)`. -/
def CThostFtdcReqUserLoginField.getUserID (f : CThostFtdcReqUserLoginField) : CStr :=
  stdStringOfCStr f.UserID

/-- Getter bound for `Password`: `std.string(f.Password)`. -/
def CThostFtdcReqUserLoginField.getPassword (f : CThostFtdcReqUserLoginField) : CStr :=
  stdStringOfCStr f.Password

/-- CThostFtdcRspInfoField, the two fields bound in ctp_pybind.cpp. -/
structure CThostFtdcRspInfoField where
  ErrorID : Int
  ErrorMsg : CStr

/-- Read-only accessor `ErrorID` (def_readonly): the field value together
with the record after the access, which the binding takes by const
reference and cannot modify. -/
def CThostFtdcRspInfoField.getErrorID (f : CThostFtdcRspInfoField) :
    Int × CThostFtdcRspInfoField := (f.ErrorID, f)

/-- Read-only accessor `ErrorMsg`: `std.string(f.ErrorMsg)` over a const
reference. -/
def CThostFtdcRspInfoField.getErrorMsg (f : CThostFtdcRspInfoField) :
    CStr × CThostFtdcRspInfoField := (stdStringOfCStr f.ErrorMsg, f)

/-- CThostFtdcRspUserLoginField, the six fields bound in ctp_pybind.cpp. -/
structure CThostFtdcRspUserLoginField where
  TradingDay : CStr
  LoginTime : CStr
  BrokerID : CStr
  UserID : CStr
  FrontID : Int
  SessionID : Int

/-- Read-only accessor `TradingDay` of the login response. -/
def CThostFtdcRspUserLoginField.getTradingDay (f : CThostFtdcRspUserLoginField) :
    CStr × CThostFtdcRspUserLoginField := (stdStringOfCStr f.TradingDay, f)

/-- Read-only accessor `LoginTime` of the login response. -/
def CThostFtdcRspUserLoginField.getLoginTime (f : CThostFtdcRspUserLoginField) :
    CStr × CThostFtdcRspUserLoginField := (stdStringOfCStr f.LoginTime, f)

/-- Read-only accessor `BrokerID` of the login response. -/
def CThostFtdcRspUserLoginField.getBrokerID (f : CThostFtdcRspUserLoginField) :
    CStr × CThostFtdcRspUserLoginField := (stdStringOfCStr f.BrokerID, f)

/-- Read-only accessor `UserID` of the login response. -/
def CThostFtdcRspUserLoginField.getUserID (f : CThostFtdcRspUserLoginField) :
    CStr × CThostFtdcRspUserLoginField := (stdStringOfCStr f.UserID, f)

/-- Read-only accessor `FrontID` of the login response (def_readonly). -/
def CThostFtdcRspUserLoginField.getFrontID (f : CThostFtdcRspUserLoginField) :
    Int × CThostFtdcRspUserLoginField := (f.FrontID, f)

/-- Read-only accessor `SessionID` of the login response (def_readonly). -/
def CThostFtdcRspUserLoginField.getSessionID (f : CThostFtdcRspUserLoginField) :
    Int × CThostFtdcRspUserLoginField := (f.SessionID, f)

/-- CThostFtdcDepthMarketDataField, the fields bound in ctp_pybind.cpp. -/
structure CThostFtdcDepthMarketDataField where
  TradingDay : CStr
  InstrumentID : CStr
  ExchangeID : CStr
  LastPrice : CDouble
  PreSettlementPrice : CDouble
  PreClosePrice : CDouble
  PreOpenInterest : CDouble
  OpenPrice : CDouble
  HighestPrice : CDouble
  LowestPrice : CDouble
  Volume : Int
  Turnover : CDouble
  OpenInterest : CDouble
  ClosePrice : CDouble
  SettlementPrice : CDouble
  UpperLimitPrice : CDouble
  LowerLimitPrice : CDouble
  UpdateTime : CStr
  UpdateMillisec : Int
  BidPrice1 : CDouble
  BidVolume1 : Int
  AskPrice1 : CDouble
  AskVolume1 : Int
  AveragePrice : CDouble
  ActionDay : CStr

/-- Read-only accessor `TradingDay` of the depth record. -/
def CThostFtdcDepthMarketDataField.getTradingDay (f : CThostFtdcDepthMarketDataField) :
    CStr × CThostFtdcDepthMarketDataField := (stdStringOfCStr f.TradingDay, f)

/-- Read-only accessor `InstrumentID` of the depth record. -/
def CThostFtdcDepthMarketDataField.getInstrumentID (f : CThostFtdcDepthMarketDataField) :
    CStr × CThostFtdcDepthMarketDataField := (stdStringOfCStr f.InstrumentID, f)

/-- Read-only accessor `ExchangeID` of the depth record. -/
def CThostFtdcDepthMarketDataField.getExchangeID (f : CThostFtdcDepthMarketDataField) :
    CStr × CThostFtdcDepthMarketDataField := (stdStringOfCStr f.ExchangeID, f)

/-- Read-only accessor `LastPrice` of the depth record (def_readonly). -/
def CThostFtdcDepthMarketDataField.getLastPrice (f : CThostFtdcDepthMarketDataField) :
    CDouble × CThostFtdcDepthMarketDataField := (f.LastPrice, f)

/-- Read-only accessor `PreSettlementPrice` of the depth record. -/
def CThostFtdcDepthMarketDataField.getPreSettlementPrice (f : CThostFtdcDepthMarketDataField) :
    CDouble × CThostFtdcDepthMarketDataField := (f.PreSettlementPrice, f)

/-- Read-only accessor `PreClosePrice` of the depth record. -/
def CThostFtdcDepthMarketDataField.getPreClosePrice (f : CThostFtdcDepthMarketDataField) :
    CDouble × CThostFtdcDepthMarketDataField := (f.PreClosePrice, f)

/-- Read-only accessor `PreOpenInterest` of the depth record. -/
def CThostFtdcDepthMarketDataField.getPreOpenInterest (f : CThostFtdcDepthMarketDataField) :
    CDouble × CThostFtdcDepthMarketDataField := (f.PreOpenInterest, f)

/-- Read-only accessor `OpenPrice` of the depth record. -/
def CThostFtdcDepthMarketDataField.getOpenPrice (f : CThostFtdcDepthMarketDataField) :
    CDouble × CThostFtdcDepthMarketDataField := (f.OpenPrice, f)

/-- Read-only accessor `HighestPrice` of the depth record. -/
def CThostFtdcDepthMarketDataField.getHighestPrice (f : CThostFtdcDepthMarketDataField) :
    CDouble × CThostFtdcDepthMarketDataField := (f.HighestPrice, f)

/-- Read-only accessor `LowestPrice` of the depth record. -/
def CThostFtdcDepthMarketDataField.getLowestPrice (f : CThostFtdcDepthMarketDataField) :
    CDouble × CThostFtdcDepthMarketDataField := (f.LowestPrice, f)

/-- Read-only accessor `Volume` of the depth record. -/
def CThostFtdcDepthMarketDataField.getVolume (f : CThostFtdcDepthMarketDataField) :
    Int × CThostFtdcDepthMarketDataField := (f.Volume, f)

/-- Read-only accessor `Turnover` of the depth record. -/
def CThostFtdcDepthMarketDataField.getTurnover (f : CThostFtdcDepthMarketDataField) :
    CDouble × CThostFtdcDepthMarketDataField := (f.Turnover, f)

/-- Read-only accessor `OpenInterest` of the depth record. -/
def CThostFtdcDepthMarketDataField.getOpenInterest (f : CThostFtdcDepthMarketDataField) :
    CDouble × CThostFtdcDepthMarketDataField := (f.OpenInterest, f)

/-- Read-only accessor `ClosePrice` of the depth record. -/
def CThostFtdcDepthMarketDataField.getClosePrice (f : CThostFtdcDepthMarketDataField) :
    CDouble × CThostFtdcDepthMarketDataField := (f.ClosePrice, f)

/-- Read-only accessor `SettlementPrice` of the depth record. -/
def CThostFtdcDepthMarketDataField.getSettlementPrice (f : CThostFtdcDepthMarketDataField) :
    CDouble × CThostFtdcDepthMarketDataField := (f.SettlementPrice, f)

/-- Read-only accessor `UpperLimitPrice` of the depth record. -/
def CThostFtdcDepthMarketDataField.getUpperLimitPrice (f : CThostFtdcDepthMarketDataField) :
    CDouble × CThostFtdcDepthMarketDataField := (f.UpperLimitPrice, f)

/-- Read-only accessor `LowerLimitPrice` of the depth record. -/
def CThostFtdcDepthMarketDataField.getLowerLimitPrice (f : CThostFtdcDepthMarketDataField) :
    CDouble × CThostFtdcDepthMarketDataField := (f.LowerLimitPrice, f)

/-- Read-only accessor `UpdateTime` of the depth record. -/
def CThostFtdcDepthMarketDataField.getUpdateTime (f : CThostFtdcDepthMarketDataField) :
    CStr × CThostFtdcDepthMarketDataField := (stdStringOfCStr f.UpdateTime, f)

/-- Read-only accessor `UpdateMillisec` of the depth record. -/
def CThostFtdcDepthMarketDataField.getUpdateMillisec (f : CThostFtdcDepthMarketDataField) :
    Int × CThostFtdcDepthMarketDataField := (f.UpdateMillisec, f)

/-- Read-only accessor `BidPrice1` of the depth record. -/
def CThostFtdcDepthMarketDataField.getBidPrice1 (f : CThostFtdcDepthMarketDataField) :
    CDouble × CThostFtdcDepthMarketDataField := (f.BidPrice1, f)

/-- Read-only accessor `BidVolume1` of the depth record. -/
def CThostFtdcDepthMarketDataField.getBidVolume1 (f : CThostFtdcDepthMarketDataField) :
    Int × CThostFtdcDepthMarketDataField := (f.BidVolume1, f)

/-- Read-only accessor `AskPrice1` of the depth record. -/
def CThostFtdcDepthMarketDataField.getAskPrice1 (f : CThostFtdcDepthMarketDataField) :
    CDouble × CThostFtdcDepthMarketDataField := (f.AskPrice1, f)

/-- Read-only accessor `AskVolume1` of the depth record. -/
def CThostFtdcDepthMarketDataField.getAskVolume1 (f : CThostFtdcDepthMarketDataField) :
    Int × CThostFtdcDepthMarketDataField := (f.AskVolume1, f)

/-- Read-only accessor `AveragePrice` of the depth record. -/
def CThostFtdcDepthMarketDataField.getAveragePrice (f : CThostFtdcDepthMarketDataField) :
    CDouble × CThostFtdcDepthMarketDataField := (f.AveragePrice, f)

/-- Read-only accessor `ActionDay` of the depth record. -/
def CThostFtdcDepthMarketDataField.getActionDay (f : CThostFtdcDepthMarketDataField) :
    CStr × CThostFtdcDepthMarketDataField := (stdStringOfCStr f.ActionDay, f)

/-- CThostFtdcSpecificInstrumentField, the single field bound in ctp_pybind.cpp. -/
structure CThostFtdcSpecificInstrumentField where
  InstrumentID : CStr

/-- Read-only accessor `InstrumentID` of the specific-instrument record. -/
def CThostFtdcSpecificInstrumentField.getInstrumentID (f : CThostFtdcSpecificInstrumentField) :
    CStr × CThostFtdcSpecificInstrumentField := (stdStringOfCStr f.InstrumentID, f)

/-- Vendor calls that PyMdApi can perform on the CTP SDK.  Each constructor
records the arguments the wrapper hands to the vendor entry point. -/
inductive MdCall where
  | createFtdcMdApi (flow_path : String)
  | release
  | registerSpi
  | registerFront (pszFrontAddress : String)
  | initCall
  | join
  | reqUserLogin (req : CThostFtdcReqUserLoginField) (nRequestID : Int)
  | subscribeMarketData (ppInstrumentID : List CStr) (nCount : Nat)
  deriving DecidableEq

/-- Oracle for the return values of the CTP vendor object behind the
`api` pointer.  The wrapper never inspects these values; it only passes
them back. -/
structure MdVendor where
  joinRet : Int
  reqUserLoginRet : CThostFtdcReqUserLoginField → Int → Int
  subscribeMarketDataRet : List CStr → Nat → Int

/-- State of a PyMdApi object: the nullable `api` member.  `none` models a
null `CThostFtdcMdApi` pointer, `some v` a live vendor object answering
with the oracle `v`. -/
def PyMdApi := Option MdVendor

/-- PyMdApi constructor: unconditionally calls
`CThostFtdcMdApi.CreateFtdcMdApi(flow_path.c_str())`. -/
def PyMdApi.create (flow_path : String) : MdCall :=
  MdCall.createFtdcMdApi flow_path

/-- PyMdApi destructor: releases the vendor object once and nulls the
member, so running it on the resulting state performs no vendor call. -/
def PyMdApi.destruct : PyMdApi → PyMdApi × List MdCall
  | none => (none, [])
  | some _ => (none, [MdCall.release])

/-- `PyMdApi.RegisterSpi`: void pass-through guarded by the null check. -/
def PyMdApi.RegisterSpi : PyMdApi → List MdCall
  | none => []
  | some _ => [MdCall.registerSpi]

/-- `PyMdApi.RegisterFront`: void pass-through guarded by the null check. -/
def PyMdApi.RegisterFront : PyMdApi → String → List MdCall
  | none, _ => []
  | some _, addr => [MdCall.registerFront addr]

/-- `PyMdApi.Init`: void pass-through guarded by the null check. -/
def PyMdApi.Init : PyMdApi → List MdCall
  | none => []
  | some _ => [MdCall.initCall]

/-- `PyMdApi.Join`: returns `api->Join()` when the handle is live, `-1`
otherwise. -/
def PyMdApi.Join : PyMdApi → Int × List MdCall
  | none => (-1, [])
  | some v => (v.joinRet, [MdCall.join])

/-- `PyMdApi.ReqUserLogin`: returns `api->ReqUserLogin(req, nRequestID)`
when the handle is live, `-1` otherwise. -/
def PyMdApi.ReqUserLogin : PyMdApi → CThostFtdcReqUserLoginField → Int → Int × List MdCall
  | none, _, _ => (-1, [])
  | some v, req, rid => (v.reqUserLoginRet req rid, [MdCall.reqUserLogin req rid])

/-- `PyMdApi.SubscribeMarketData`: builds one `char*` per symbol (`p_symbols`,
each entry pointing at one symbol's characters) and calls the vendor with
`p_symbols.data()` and `p_symbols.size()`; `-1` on a null handle. -/
def PyMdApi.SubscribeMarketData : PyMdApi → List CStr → Int × List MdCall
  | none, _ => (-1, [])
  | some v, symbols =>
      let p_symbols := symbols.map (fun s => s)
      (v.subscribeMarketDataRet p_symbols p_symbols.length,
       [MdCall.subscribeMarketData p_symbols p_symbols.length])

end Ctp

namespace Nsq

/-- CHSNsqReqUserLoginField, the two fields bound in nsq_pybind.cpp. -/
structure CHSNsqReqUserLoginField where
  AccountID : CStr
  Password : CStr
  deriving DecidableEq

/-- Setter bound for `AccountID`: `copy_cstr(f.AccountID, sizeof(f.AccountID), v)`. -/
def CHSNsqReqUserLoginField.setAccountID (f : CHSNsqReqUserLoginField)
    (v : CStr) : CHSNsqReqUserLoginField :=
  { f with AccountID := copy_cstr f.AccountID v }

/-- Setter bound for `Password`: `copy_cstr(f.Password, sizeof(f.Password), v)`. -/
def CHSNsqReqUserLoginField.setPassword (f : CHSNsqReqUserLoginField)
    (v : CStr) : CHSNsqReqUserLoginField :=
  { f with Password := copy_cstr f.Password v }

/-- Getter bound for `AccountID`: `std.string(f.AccountID)`. -/
def CHSNsqReqUserLoginField.getAccountID (f : CHSNsqReqUserLoginField) : CStr :=
  stdStringOfCStr f.AccountID

/-- Getter bound for `Password`: `std.string(f.Password)`. -/
def CHSNsqReqUserLoginField.getPassword (f : CHSNsqReqUserLoginField) : CStr :=
  stdStringOfCStr f.Password

/-- CHSNsqRspInfoField, the two fields bound in nsq_pybind.cpp. -/
structure CHSNsqRspInfoField where
  ErrorID : Int
  ErrorMsg : CStr

/-- Read-only accessor `ErrorID` (def_readonly). -/
def CHSNsqRspInfoField.getErrorID (f : CHSNsqRspInfoField) :
    Int × CHSNsqRspInfoField := (f.ErrorID, f)

/-- Read-only accessor `ErrorMsg`: `std.string(f.ErrorMsg)`. -/
def CHSNsqRspInfoField.getErrorMsg (f : CHSNsqRspInfoField) :
    CStr × CHSNsqRspInfoField := (stdStringOfCStr f.ErrorMsg, f)

/-- CHSNsqRspUserLoginField, the four fields bound in nsq_pybind.cpp.
`BranchID` and `TradingDay` are bound with def_readonly (plain values). -/
structure CHSNsqRspUserLoginField where
  BranchID : Int
  AccountID : CStr
  UserName : CStr
  TradingDay : Int

/-- Read-only accessor `BranchID` of the login response. -/
def CHSNsqRspUserLoginField.getBranchID (f : CHSNsqRspUserLoginField) :
    Int × CHSNsqRspUserLoginField := (f.BranchID, f)

/-- Read-only accessor `AccountID` of the login response. -/
def CHSNsqRspUserLoginField.getAccountID (f : CHSNsqRspUserLoginField) :
    CStr × CHSNsqRspUserLoginField := (stdStringOfCStr f.AccountID, f)

/-- Read-only accessor `UserName` of the login response. -/
def CHSNsqRspUserLoginField.getUserName (f : CHSNsqRspUserLoginField) :
    CStr × CHSNsqRspUserLoginField := (stdStringOfCStr f.UserName, f)

/-- Read-only accessor `TradingDay` of the login response. -/
def CHSNsqRspUserLoginField.getTradingDay (f : CHSNsqRspUserLoginField) :
    Int × CHSNsqRspUserLoginField := (f.TradingDay, f)

/-- CHSNsqFutuDepthMarketDataField, the fields bound in nsq_pybind.cpp.
The four depth arrays are vendor-defined C arrays of at least five
entries; they are modelled as functions from the index. -/
structure CHSNsqFutuDepthMarketDataField where
  TradingDay : Int
  InstrumentID : CStr
  ExchangeID : CStr
  LastPrice : CDouble
  PreSettlementPrice : CDouble
  PreClosePrice : CDouble
  OpenPrice : CDouble
  HighestPrice : CDouble
  LowestPrice : CDouble
  TradeVolume : Int
  OpenInterest : CDouble
  UpdateTime : Int
  ActionDay : Int
  BidPrice : Nat → CDouble
  BidVolume : Nat → CDouble
  AskPrice : Nat → CDouble
  AskVolume : Nat → CDouble

/-- Read-only accessor `TradingDay` of the depth record (def_readonly). -/
def CHSNsqFutuDepthMarketDataField.getTradingDay (f : CHSNsqFutuDepthMarketDataField) :
    Int × CHSNsqFutuDepthMarketDataField := (f.TradingDay, f)

/-- Read-only accessor `InstrumentID` of the depth record. -/
def CHSNsqFutuDepthMarketDataField.getInstrumentID (f : CHSNsqFutuDepthMarketDataField) :
    CStr × CHSNsqFutuDepthMarketDataField := (stdStringOfCStr f.InstrumentID, f)

/-- Read-only accessor `ExchangeID` of the depth record. -/
def CHSNsqFutuDepthMarketDataField.getExchangeID (f : CHSNsqFutuDepthMarketDataField) :
    CStr × CHSNsqFutuDepthMarketDataField := (stdStringOfCStr f.ExchangeID, f)

/-- Read-only accessor `LastPrice` of the depth record. -/
def CHSNsqFutuDepthMarketDataField.getLastPrice (f : CHSNsqFutuDepthMarketDataField) :
    CDouble × CHSNsqFutuDepthMarketDataField := (f.LastPrice, f)

/-- Read-only accessor `PreSettlementPrice` of the depth record. -/
def CHSNsqFutuDepthMarketDataField.getPreSettlementPrice (f : CHSNsqFutuDepthMarketDataField) :
    CDouble × CHSNsqFutuDepthMarketDataField := (f.PreSettlementPrice, f)

/-- Read-only accessor `PreClosePrice` of the depth record. -/
def CHSNsqFutuDepthMarketDataField.getPreClosePrice (f : CHSNsqFutuDepthMarketDataField) :
    CDouble × CHSNsqFutuDepthMarketDataField := (f.PreClosePrice, f)

/-- Read-only accessor `OpenPrice` of the depth record. -/
def CHSNsqFutuDepthMarketDataField.getOpenPrice (f : CHSNsqFutuDepthMarketDataField) :
    CDouble × CHSNsqFutuDepthMarketDataField := (f.OpenPrice, f)

/-- Read-only accessor `HighestPrice` of the depth record. -/
def CHSNsqFutuDepthMarketDataField.getHighestPrice (f : CHSNsqFutuDepthMarketDataField) :
    CDouble × CHSNsqFutuDepthMarketDataField := (f.HighestPrice, f)

/-- Read-only accessor `LowestPrice` of the depth record. -/
def CHSNsqFutuDepthMarketDataField.getLowestPrice (f : CHSNsqFutuDepthMarketDataField) :
    CDouble × CHSNsqFutuDepthMarketDataField := (f.LowestPrice, f)

/-- Read-only accessor `TradeVolume` of the depth record. -/
def CHSNsqFutuDepthMarketDataField.getTradeVolume (f : CHSNsqFutuDepthMarketDataField) :
    Int × CHSNsqFutuDepthMarketDataField := (f.TradeVolume, f)

/-- Read-only accessor `OpenInterest` of the depth record. -/
def CHSNsqFutuDepthMarketDataField.getOpenInterest (f : CHSNsqFutuDepthMarketDataField) :
    CDouble × CHSNsqFutuDepthMarketDataField := (f.OpenInterest, f)

/-- Read-only accessor `UpdateTime` of the depth record (def_readonly). -/
def CHSNsqFutuDepthMarketDataField.getUpdateTime (f : CHSNsqFutuDepthMarketDataField) :
    Int × CHSNsqFutuDepthMarketDataField := (f.UpdateTime, f)

/-- Read-only accessor `ActionDay` of the depth record (def_readonly). -/
def CHSNsqFutuDepthMarketDataField.getActionDay (f : CHSNsqFutuDepthMarketDataField) :
    Int × CHSNsqFutuDepthMarketDataField := (f.ActionDay, f)

/-- Read-only accessor `BidPrice`: the loop `for i in 0..4 push f.BidPrice[i]`. -/
def CHSNsqFutuDepthMarketDataField.getBidPrice (f : CHSNsqFutuDepthMarketDataField) :
    List CDouble × CHSNsqFutuDepthMarketDataField := ((List.range 5).map f.BidPrice, f)

/-- Read-only accessor `BidVolume`: the loop `for i in 0..4 push f.BidVolume[i]`. -/
def CHSNsqFutuDepthMarketDataField.getBidVolume (f : CHSNsqFutuDepthMarketDataField) :
    List CDouble × CHSNsqFutuDepthMarketDataField := ((List.range 5).map f.BidVolume, f)

/-- Read-only accessor `AskPrice`: the loop `for i in 0..4 push f.AskPrice[i]`. -/
def CHSNsqFutuDepthMarketDataField.getAskPrice (f : CHSNsqFutuDepthMarketDataField) :
    List CDouble × CHSNsqFutuDepthMarketDataField := ((List.range 5).map f.AskPrice, f)

/-- Read-only accessor `AskVolume`: the loop `for i in 0..4 push f.AskVolume[i]`. -/
def CHSNsqFutuDepthMarketDataField.getAskVolume (f : CHSNsqFutuDepthMarketDataField) :
    List CDouble × CHSNsqFutuDepthMarketDataField := ((List.range 5).map f.AskVolume, f)

/-- CHSNsqReqFutuDepthMarketDataField, the two char-array fields used by
the subscribe wrappers.  Records are value-initialized by `reqs.resize`
(all bytes zero) before `copy_cstr` fills the two arrays. -/
structure NsqSubReq where
  ExchangeID : CStr
  InstrumentID : CStr
  deriving DecidableEq

/-- One zero-initialized CHSNsqReqFutuDepthMarketDataField whose arrays
have the vendor-defined sizes `exSz` and `instSz`. -/
def emptySubReq (exSz instSz : Nat) : NsqSubReq :=
  { ExchangeID := List.replicate exSz 0, InstrumentID := List.replicate instSz 0 }

/-- Loop body of `ReqFutuDepthMarketDataSubscribe`: from a zeroed record,
`copy_cstr` the pair's first component into ExchangeID and its second into
InstrumentID. -/
def mkSubReq (exSz instSz : Nat) (c : CStr × CStr) : NsqSubReq :=
  { ExchangeID := copy_cstr (List.replicate exSz 0) c.1,
    InstrumentID := copy_cstr (List.replicate instSz 0) c.2 }

/-- Vendor calls that PyNsqApi can perform on the NSQ SDK. -/
inductive NsqCall where
  | newNsqApi (flow_path : String)
  | newNsqApiExt (flow_path sdk_cfg_file_path : String)
  | releaseApi
  | registerSpi
  | registerFront (front : String)
  | initApi (lic_file safe_level pwd ssl_file ssl_pwd : String)
  | reqUserLogin (req : CHSNsqReqUserLoginField) (request_id : Int)
  | getApiErrorMsg (err : Int)
  | reqFutuDepthMarketDataSubscribe (reqs : List NsqSubReq) (nCount : Int) (request_id : Int)
  deriving DecidableEq

/-- Oracle for the return values of the NSQ vendor object behind the
`api_` pointer. -/
structure NsqVendor where
  registerFrontRet : String → Int
  initRet : String → String → String → String → String → Int
  reqUserLoginRet : CHSNsqReqUserLoginField → Int → Int
  getApiErrorMsgRet : Int → Option String
  reqFutuDepthMarketDataSubscribeRet : List NsqSubReq → Int → Int → Int

/-- State of a PyNsqApi object: the nullable `api_` member. -/
def PyNsqApi := Option NsqVendor

/-- PyNsqApi constructor: `NewNsqApi(flow_path)` when `sdk_cfg_file_path`
is empty, `NewNsqApiExt(flow_path, sdk_cfg_file_path)` otherwise. -/
def PyNsqApi.create (flow_path sdk_cfg_file_path : String) : NsqCall :=
  if sdk_cfg_file_path = "" then NsqCall.newNsqApi flow_path
  else NsqCall.newNsqApiExt flow_path sdk_cfg_file_path

/-- PyNsqApi destructor: `ReleaseApi` once, then the member is nulled. -/
def PyNsqApi.destruct : PyNsqApi → PyNsqApi × List NsqCall
  | none => (none, [])
  | some _ => (none, [NsqCall.releaseApi])

/-- `PyNsqApi.RegisterSpi`: void pass-through guarded by the null check. -/
def PyNsqApi.RegisterSpi : PyNsqApi → List NsqCall
  | none => []
  | some _ => [NsqCall.registerSpi]

/-- `PyNsqApi.RegisterFront`: returns `api_->RegisterFront(front.c_str())`
when live, `-1` otherwise. -/
def PyNsqApi.RegisterFront : PyNsqApi → String → Int × List NsqCall
  | none, _ => (-1, [])
  | some v, front => (v.registerFrontRet front, [NsqCall.registerFront front])

/-- `PyNsqApi.Init`: returns the vendor `Init` result when live, `-1`
otherwise. -/
def PyNsqApi.Init : PyNsqApi → String → String → String → String → String → Int × List NsqCall
  | none, _, _, _, _, _ => (-1, [])
  | some v, lic, safe, pwd, ssl, sslpwd =>
      (v.initRet lic safe pwd ssl sslpwd, [NsqCall.initApi lic safe pwd ssl sslpwd])

/-- `PyNsqApi.ReqUserLogin`: pass-through with `-1` on a null handle. -/
def PyNsqApi.ReqUserLogin : PyNsqApi → CHSNsqReqUserLoginField → Int → Int × List NsqCall
  | none, _, _ => (-1, [])
  | some v, req, rid => (v.reqUserLoginRet req rid, [NsqCall.reqUserLogin req rid])

/-- `PyNsqApi.GetApiErrorMsg`: the empty string on a null handle or a null
vendor message, otherwise the vendor message. -/
def PyNsqApi.GetApiErrorMsg : PyNsqApi → Int → String × List NsqCall
  | none, _ => ("", [])
  | some v, err => ((v.getApiErrorMsgRet err).getD "", [NsqCall.getApiErrorMsg err])

/-- `PyNsqApi.ReqFutuDepthMarketDataSubscribe`: builds one zeroed request
record per (exchange, instrument) pair, fills it with `copy_cstr`, and
calls the vendor with the record array, `(int)reqs.size()` and the request
id; `-1` on a null handle.  `exSz` and `instSz` are the vendor-defined
sizes of the two char arrays. -/
def PyNsqApi.ReqFutuDepthMarketDataSubscribe (exSz instSz : Nat) :
    PyNsqApi → List (CStr × CStr) → Int → Int × List NsqCall
  | none, _, _ => (-1, [])
  | some v, contracts, rid =>
      let reqs := contracts.map (mkSubReq exSz instSz)
      (v.reqFutuDepthMarketDataSubscribeRet reqs (Int.ofNat reqs.length) rid,
       [NsqCall.reqFutuDepthMarketDataSubscribe reqs (Int.ofNat reqs.length) rid])

/-- `PyNsqApi.SubscribeMarket`: one zeroed record whose ExchangeID is
filled with `copy_cstr`, passed to the vendor with `nCount = 0`; `-1` on a
null handle. -/
def PyNsqApi.SubscribeMarket (exSz instSz : Nat) :
    PyNsqApi → CStr → Int → Int × List NsqCall
  | none, _, _ => (-1, [])
  | some v, exchange_id, rid =>
      let req := { emptySubReq exSz instSz with
                     ExchangeID := copy_cstr (List.replicate exSz 0) exchange_id }
      (v.reqFutuDepthMarketDataSubscribeRet [req] 0 rid,
       [NsqCall.reqFutuDepthMarketDataSubscribe [req] 0 rid])

end Nsq

namespace Exanic

/-- Capsule name constant CAPSULE_EXANIC of exanic_pybind.cpp. -/
def CAPSULE_EXANIC : String := "exanic_t"

/-- Capsule name constant CAPSULE_EXANIC_RX of exanic_pybind.cpp. -/
def CAPSULE_EXANIC_RX : String := "exanic_rx_t"

/-- A CPython capsule object: a name and a stored void pointer, `none`
standing for a NULL pointer.  Pointers themselves are opaque and modelled
as naturals. -/
structure Capsule where
  name : String
  ptr : Option Nat
  deriving DecidableEq

/-- CPython `PyCapsule_IsValid(capsule, name)`: true exactly when the name
matches and the stored pointer is non-NULL. -/
def PyCapsule_IsValid (cap : Capsule) (nm : String) : Bool :=
  decide (cap.name = nm) && cap.ptr.isSome

/-- Combined `PyCapsule_IsValid` guard plus `PyCapsule_GetPointer`: the
stored pointer when the capsule is valid for `nm`, and `none` exactly when
`PyCapsule_IsValid` is false (wrong name or NULL pointer). -/
def capPtrIfValid (cap : Capsule) (nm : String) : Option Nat :=
  if cap.name = nm then cap.ptr else none

/-- CPython `PyCapsule_SetPointer(capsule, pointer)`: stores a non-NULL
pointer and reports success; a NULL argument is rejected (the documented
CPython behaviour: ValueError, capsule left unchanged, nonzero return). -/
def PyCapsule_SetPointer (cap : Capsule) (p : Option Nat) : Capsule × Bool :=
  match p with
  | none => (cap, false)
  | some q => ({ cap with ptr := some q }, true)

/-- Vendor calls that the exanic_pybind functions can perform, with the
pointer and arguments handed to the vendor entry point. -/
inductive ExaCall where
  | exanic_acquire_handle (device_name : String)
  | exanic_acquire_rx_buffer (nic : Nat) (port_number buffer_number : Int)
  | exanic_receive_frame (rx : Nat) (chunk_size : Nat)
  | exanic_release_rx_buffer (rx : Nat)
  | exanic_release_handle (nic : Nat)
  deriving DecidableEq

/-- `acquire_handle(device_name)`: always calls the vendor acquire; None
when the vendor returns NULL, otherwise a capsule named "exanic_t"
wrapping the vendor pointer.  `acq` is the oracle for
`exanic_acquire_handle`. -/
def acquire_handle (acq : String → Option Nat) (device_name : String) :
    Option Capsule × List ExaCall :=
  match acq device_name with
  | none => (none, [ExaCall.exanic_acquire_handle device_name])
  | some nic =>
      (some { name := CAPSULE_EXANIC, ptr := some nic },
       [ExaCall.exanic_acquire_handle device_name])

/-- `acquire_rx_buffer(handle, port_number, buffer_number)`: a runtime
error on an invalid capsule (no vendor call), otherwise None when the
vendor returns NULL and a capsule named "exanic_rx_t" wrapping the vendor
pointer when it does not.  `acq` is the oracle for
`exanic_acquire_rx_buffer`. -/
def acquire_rx_buffer (acq : Nat → Int → Int → Option Nat)
    (handle_cap : Capsule) (port_number buffer_number : Int) :
    Except String (Option Capsule) × List ExaCall :=
  match capPtrIfValid handle_cap CAPSULE_EXANIC with
  | none => (Except.error "invalid exanic handle capsule", [])
  | some nic =>
      match acq nic port_number buffer_number with
      | none => (Except.ok none,
                 [ExaCall.exanic_acquire_rx_buffer nic port_number buffer_number])
      | some rx => (Except.ok (some { name := CAPSULE_EXANIC_RX, ptr := some rx }),
                    [ExaCall.exanic_acquire_rx_buffer nic port_number buffer_number])

/-- Oracle for one `exanic_receive_frame` call: given the buffer size the
wrapper passes, the vendor return value and the bytes the vendor writes
into the buffer. -/
structure RecvOracle where
  retLen : Nat → Int
  written : Nat → CStr

/-- Contents of the `std.string buf(max_size, 0)` buffer after the vendor
call: the written bytes, clipped to the buffer, with the untouched tail
still NUL. -/
def recvBuffer (o : RecvOracle) (m : Nat) : CStr :=
  (o.written m).take m ++ List.replicate (m - (o.written m).length) 0

/-- `receive_frame(rx_handle, max_size)`: a runtime error on an invalid
capsule (no vendor call); otherwise `max_size = 0` is replaced by 2048,
the vendor fills a buffer of that size, and the result is empty bytes when
the vendor returns `n <= 0` and the first `n` buffer bytes otherwise. -/
def receive_frame (o : RecvOracle) (rx_cap : Capsule) (max_size : Nat) :
    Except String CStr × List ExaCall :=
  match capPtrIfValid rx_cap CAPSULE_EXANIC_RX with
  | none => (Except.error "invalid exanic_rx handle capsule", [])
  | some rx =>
      let m := if max_size = 0 then 2048 else max_size
      let n := o.retLen m
      if n ≤ 0 then (Except.ok [], [ExaCall.exanic_receive_frame rx m])
      else (Except.ok ((recvBuffer o m).take n.toNat),
            [ExaCall.exanic_receive_frame rx m])

/-- `release_rx_buffer(rx_handle)`: silently returns on an invalid capsule;
otherwise releases the vendor RX buffer and then attempts
`PyCapsule_SetPointer(rx_cap, nullptr)`, whose result the wrapper
ignores. -/
def release_rx_buffer (rx_cap : Capsule) : Capsule × List ExaCall :=
  match capPtrIfValid rx_cap CAPSULE_EXANIC_RX with
  | none => (rx_cap, [])
  | some rx => ((PyCapsule_SetPointer rx_cap none).1,
                [ExaCall.exanic_release_rx_buffer rx])

/-- `release_handle(handle)`: silently returns on an invalid capsule;
otherwise releases the vendor handle and then attempts
`PyCapsule_SetPointer(handle_cap, nullptr)`, whose result the wrapper
ignores. -/
def release_handle (handle_cap : Capsule) : Capsule × List ExaCall :=
  match capPtrIfValid handle_cap CAPSULE_EXANIC with
  | none => (handle_cap, [])
  | some nic => ((PyCapsule_SetPointer handle_cap none).1,
                 [ExaCall.exanic_release_handle nic])

end Exanic

namespace Ctp

/-- Trampoline subclass PyMdSpi: for each overridden virtual method, the
dynamically supplied Python override (when present) and the vendor
base-class member.  `ρ` is an arbitrary observation type for the call
results, so forwarding the arguments unchanged is meaningful for every
instantiation. -/
structure PyMdSpi (ρ : Type) where
  base_OnFrontConnected : ρ
  base_OnFrontDisconnected : Int → ρ
  base_OnRspUserLogin : Option CThostFtdcRspUserLoginField → Option CThostFtdcRspInfoField → Int → Bool → ρ
  base_OnRtnDepthMarketData : Option CThostFtdcDepthMarketDataField → ρ
  base_OnRspSubMarketData : Option CThostFtdcSpecificInstrumentField → Option CThostFtdcRspInfoField → Int → Bool → ρ
  base_OnRspError : Option CThostFtdcRspInfoField → Int → Bool → ρ
  py_OnFrontConnected : Option ρ
  py_OnFrontDisconnected : Option (Int → ρ)
  py_OnRspUserLogin : Option (Option CThostFtdcRspUserLoginField → Option CThostFtdcRspInfoField → Int → Bool → ρ)
  py_OnRtnDepthMarketData : Option (Option CThostFtdcDepthMarketDataField → ρ)
  py_OnRspSubMarketData : Option (Option CThostFtdcSpecificInstrumentField → Option CThostFtdcRspInfoField → Int → Bool → ρ)
  py_OnRspError : Option (Option CThostFtdcRspInfoField → Int → Bool → ρ)

/-- Override `PyMdSpi.OnFrontConnected`: PYBIND11_OVERLOAD dispatch. -/
def PyMdSpi.OnFrontConnected (s : PyMdSpi ρ) : ρ :=
  PYBIND11_OVERLOAD s.py_OnFrontConnected s.base_OnFrontConnected

/-- Override `PyMdSpi.OnFrontDisconnected`: PYBIND11_OVERLOAD dispatch. -/
def PyMdSpi.OnFrontDisconnected (s : PyMdSpi ρ) (nReason : Int) : ρ :=
  PYBIND11_OVERLOAD s.py_OnFrontDisconnected s.base_OnFrontDisconnected nReason

/-- Override `PyMdSpi.OnRspUserLogin`: PYBIND11_OVERLOAD dispatch. -/
def PyMdSpi.OnRspUserLogin (s : PyMdSpi ρ)
    (pRspUserLogin : Option CThostFtdcRspUserLoginField)
    (pRspInfo : Option CThostFtdcRspInfoField) (nRequestID : Int) (bIsLast : Bool) : ρ :=
  PYBIND11_OVERLOAD s.py_OnRspUserLogin s.base_OnRspUserLogin
    pRspUserLogin pRspInfo nRequestID bIsLast

/-- Override `PyMdSpi.OnRtnDepthMarketData`: PYBIND11_OVERLOAD dispatch. -/
def PyMdSpi.OnRtnDepthMarketData (s : PyMdSpi ρ)
    (pDepthMarketData : Option CThostFtdcDepthMarketDataField) : ρ :=
  PYBIND11_OVERLOAD s.py_OnRtnDepthMarketData s.base_OnRtnDepthMarketData pDepthMarketData

/-- Override `PyMdSpi.OnRspSubMarketData`: PYBIND11_OVERLOAD dispatch. -/
def PyMdSpi.OnRspSubMarketData (s : PyMdSpi ρ)
    (pSpecificInstrument : Option CThostFtdcSpecificInstrumentField)
    (pRspInfo : Option CThostFtdcRspInfoField) (nRequestID : Int) (bIsLast : Bool) : ρ :=
  PYBIND11_OVERLOAD s.py_OnRspSubMarketData s.base_OnRspSubMarketData
    pSpecificInstrument pRspInfo nRequestID bIsLast

/-- Override `PyMdSpi.OnRspError`: PYBIND11_OVERLOAD dispatch. -/
def PyMdSpi.OnRspError (s : PyMdSpi ρ)
    (pRspInfo : Option CThostFtdcRspInfoField) (nRequestID : Int) (bIsLast : Bool) : ρ :=
  PYBIND11_OVERLOAD s.py_OnRspError s.base_OnRspError pRspInfo nRequestID bIsLast

end Ctp

namespace Nsq

/-- Trampoline subclass PyNsqSpi, analogous to PyMdSpi. -/
structure PyNsqSpi (ρ : Type) where
  base_OnFrontConnected : ρ
  base_OnFrontDisconnected : Int → ρ
  base_OnRspUserLogin : Option CHSNsqRspUserLoginField → Option CHSNsqRspInfoField → Int → Bool → ρ
  base_OnRspFutuDepthMarketDataSubscribe : Option CHSNsqRspInfoField → Int → Bool → ρ
  base_OnRtnFutuDepthMarketData : Option CHSNsqFutuDepthMarketDataField → ρ
  py_OnFrontConnected : Option ρ
  py_OnFrontDisconnected : Option (Int → ρ)
  py_OnRspUserLogin : Option (Option CHSNsqRspUserLoginField → Option CHSNsqRspInfoField → Int → Bool → ρ)
  py_OnRspFutuDepthMarketDataSubscribe : Option (Option CHSNsqRspInfoField → Int → Bool → ρ)
  py_OnRtnFutuDepthMarketData : Option (Option CHSNsqFutuDepthMarketDataField → ρ)

/-- Override `PyNsqSpi.OnFrontConnected`: PYBIND11_OVERLOAD dispatch. -/
def PyNsqSpi.OnFrontConnected (s : PyNsqSpi ρ) : ρ :=
  PYBIND11_OVERLOAD s.py_OnFrontConnected s.base_OnFrontConnected

/-- Override `PyNsqSpi.OnFrontDisconnected`: PYBIND11_OVERLOAD dispatch. -/
def PyNsqSpi.OnFrontDisconnected (s : PyNsqSpi ρ) (nResult : Int) : ρ :=
  PYBIND11_OVERLOAD s.py_OnFrontDisconnected s.base_OnFrontDisconnected nResult

/-- Override `PyNsqSpi.OnRspUserLogin`: PYBIND11_OVERLOAD dispatch. -/
def PyNsqSpi.OnRspUserLogin (s : PyNsqSpi ρ)
    (pRspUserLogin : Option CHSNsqRspUserLoginField)
    (pRspInfo : Option CHSNsqRspInfoField) (nRequestID : Int) (bIsLast : Bool) : ρ :=
  PYBIND11_OVERLOAD s.py_OnRspUserLogin s.base_OnRspUserLogin
    pRspUserLogin pRspInfo nRequestID bIsLast

/-- Override `PyNsqSpi.OnRspFutuDepthMarketDataSubscribe`: PYBIND11_OVERLOAD
dispatch. -/
def PyNsqSpi.OnRspFutuDepthMarketDataSubscribe (s : PyNsqSpi ρ)
    (pRspInfo : Option CHSNsqRspInfoField) (nRequestID : Int) (bIsLast : Bool) : ρ :=
  PYBIND11_OVERLOAD s.py_OnRspFutuDepthMarketDataSubscribe
    s.base_OnRspFutuDepthMarketDataSubscribe pRspInfo nRequestID bIsLast

/-- Override `PyNsqSpi.OnRtnFutuDepthMarketData`: PYBIND11_OVERLOAD dispatch. -/
def PyNsqSpi.OnRtnFutuDepthMarketData (s : PyNsqSpi ρ)
    (pFutuDepthMarketData : Option CHSNsqFutuDepthMarketDataField) : ρ :=
  PYBIND11_OVERLOAD s.py_OnRtnFutuDepthMarketData s.base_OnRtnFutuDepthMarketData
    pFutuDepthMarketData

end Nsq

/-- Zero-initialized CThostFtdcReqUserLoginField with the vendor header
array sizes (BrokerID char[11], UserID char[16], Password char[41]). -/
def ctpEmptyReqUserLogin : Ctp.CThostFtdcReqUserLoginField :=
  { BrokerID := List.replicate 11 0
    UserID := List.replicate 16 0
    Password := List.replicate 41 0 }

/-- C1: the claim says every vendor handle is released at most once; the
exanic release functions, however, cannot null the capsule pointer
(CPython rejects `PyCapsule_SetPointer(cap, NULL)` and leaves the capsule
unchanged), so releasing the same RX capsule twice hands the same stale
pointer to `exanic_release_rx_buffer` a second time: both the first and
the second call of `release_rx_buffer` perform the vendor release. -/
theorem c1_exanic_second_release_repeats_vendor_call :
    (Exanic.release_rx_buffer { name := "exanic_rx_t", ptr := some 7 }).2
      = [Exanic.ExaCall.exanic_release_rx_buffer 7]
  ∧ (Exanic.release_rx_buffer
       (Exanic.release_rx_buffer { name := "exanic_rx_t", ptr := some 7 }).1).2
      = [Exanic.ExaCall.exanic_release_rx_buffer 7] := by
  constructor <;> rfl

/-- C3: the claim says set-then-get truncates to at most size-1 bytes and
leaves the array NUL-terminated; the CTP setters use
`strncpy(dest, v, sizeof(dest))`, so an 11-byte value stored into the
11-byte BrokerID array fills it completely, leaves no NUL byte in it, and
reading it back yields all 11 bytes (the C++ getter then runs past the
array). -/
theorem c3_ctp_setter_leaves_array_unterminated :
    ((ctpEmptyReqUserLogin.setBrokerID (List.replicate 11 65)).BrokerID.contains 0
        = false)
  ∧ (ctpEmptyReqUserLogin.setBrokerID (List.replicate 11 65)).BrokerID.length = 11
  ∧ (ctpEmptyReqUserLogin.setBrokerID (List.replicate 11 65)).getBrokerID
      = List.replicate 11 65 := by
  constructor
  · rfl
  · constructor <;> rfl

/-- C5: every trampoline override forwards its arguments unchanged to the
supplied callback when one is present, and falls back to the vendor
base-class member otherwise, for all six PyMdSpi methods and all five
PyNsqSpi methods. -/
theorem c5_trampolines_forward_unchanged :
    ∀ (ρ : Type) (s : Ctp.PyMdSpi ρ) (t : Nsq.PyNsqSpi ρ)
      (r0 : ρ) (f1 : Int → ρ)
      (f2 : Option Ctp.CThostFtdcRspUserLoginField → Option Ctp.CThostFtdcRspInfoField → Int → Bool → ρ)
      (f3 : Option Ctp.CThostFtdcDepthMarketDataField → ρ)
      (f4 : Option Ctp.CThostFtdcSpecificInstrumentField → Option Ctp.CThostFtdcRspInfoField → Int → Bool → ρ)
      (f5 : Option Ctp.CThostFtdcRspInfoField → Int → Bool → ρ)
      (g2 : Option Nsq.CHSNsqRspUserLoginField → Option Nsq.CHSNsqRspInfoField → Int → Bool → ρ)
      (g4 : Option Nsq.CHSNsqRspInfoField → Int → Bool → ρ)
      (g5 : Option Nsq.CHSNsqFutuDepthMarketDataField → ρ)
      (n : Int) (pl : Option Ctp.CThostFtdcRspUserLoginField)
      (pi : Option Ctp.CThostFtdcRspInfoField)
      (pd : Option Ctp.CThostFtdcDepthMarketDataField)
      (ps : Option Ctp.CThostFtdcSpecificInstrumentField)
      (ql : Option Nsq.CHSNsqRspUserLoginField) (qi : Option Nsq.CHSNsqRspInfoField)
      (qd : Option Nsq.CHSNsqFutuDepthMarketDataField)
      (rid : Int) (last : Bool),
      Ctp.PyMdSpi.OnFrontConnected { s with py_OnFrontConnected := some r0 } = r0
    ∧ Ctp.PyMdSpi.OnFrontConnected { s with py_OnFrontConnected := none }
        = s.base_OnFrontConnected
    ∧ Ctp.PyMdSpi.OnFrontDisconnected { s with py_OnFrontDisconnected := some f1 } n = f1 n
    ∧ Ctp.PyMdSpi.OnFrontDisconnected { s with py_OnFrontDisconnected := none } n
        = s.base_OnFrontDisconnected n
    ∧ Ctp.PyMdSpi.OnRspUserLogin { s with py_OnRspUserLogin := some f2 } pl pi rid last
        = f2 pl pi rid last
    ∧ Ctp.PyMdSpi.OnRspUserLogin { s with py_OnRspUserLogin := none } pl pi rid last
        = s.base_OnRspUserLogin pl pi rid last
    ∧ Ctp.PyMdSpi.OnRtnDepthMarketData { s with py_OnRtnDepthMarketData := some f3 } pd
        = f3 pd
    ∧ Ctp.PyMdSpi.OnRtnDepthMarketData { s with py_OnRtnDepthMarketData := none } pd
        = s.base_OnRtnDepthMarketData pd
    ∧ Ctp.PyMdSpi.OnRspSubMarketData { s with py_OnRspSubMarketData := some f4 } ps pi rid last
        = f4 ps pi rid last
    ∧ Ctp.PyMdSpi.OnRspSubMarketData { s with py_OnRspSubMarketData := none } ps pi rid last
        = s.base_OnRspSubMarketData ps pi rid last
    ∧ Ctp.PyMdSpi.OnRspError { s with py_OnRspError := some f5 } pi rid last
        = f5 pi rid last
    ∧ Ctp.PyMdSpi.OnRspError { s with py_OnRspError := none } pi rid last
        = s.base_OnRspError pi rid last
    ∧ Nsq.PyNsqSpi.OnFrontConnected { t with py_OnFrontConnected := some r0 } = r0
    ∧ Nsq.PyNsqSpi.OnFrontConnected { t with py_OnFrontConnected := none }
        = t.base_OnFrontConnected
    ∧ Nsq.PyNsqSpi.OnFrontDisconnected { t with py_OnFrontDisconnected := some f1 } n = f1 n
    ∧ Nsq.PyNsqSpi.OnFrontDisconnected { t with py_OnFrontDisconnected := none } n
        = t.base_OnFrontDisconnected n
    ∧ Nsq.PyNsqSpi.OnRspUserLogin { t with py_OnRspUserLogin := some g2 } ql qi rid last
        = g2 ql qi rid last
    ∧ Nsq.PyNsqSpi.OnRspUserLogin { t with py_OnRspUserLogin := none } ql qi rid last
        = t.base_OnRspUserLogin ql qi rid last
    ∧ Nsq.PyNsqSpi.OnRspFutuDepthMarketDataSubscribe
        { t with py_OnRspFutuDepthMarketDataSubscribe := some g4 } qi rid last
        = g4 qi rid last
    ∧ Nsq.PyNsqSpi.OnRspFutuDepthMarketDataSubscribe
        { t with py_OnRspFutuDepthMarketDataSubscribe := none } qi rid last
        = t.base_OnRspFutuDepthMarketDataSubscribe qi rid last
    ∧ Nsq.PyNsqSpi.OnRtnFutuDepthMarketData
        { t with py_OnRtnFutuDepthMarketData := some g5 } qd = g5 qd
    ∧ Nsq.PyNsqSpi.OnRtnFutuDepthMarketData
        { t with py_OnRtnFutuDepthMarketData := none } qd
        = t.base_OnRtnFutuDepthMarketData qd := by
  intros
  repeat' apply And.intro
  all_goals rfl

/-- C9: PyMdApi construction always calls CreateFtdcMdApi with the given
flow path; PyNsqApi construction calls NewNsqApi when the SDK
configuration path is empty and NewNsqApiExt with both paths otherwise. -/
theorem c9_constructor_factory_dispatch :
    ∀ (flow cfg : String),
      Ctp.PyMdApi.create flow = Ctp.MdCall.createFtdcMdApi flow
    ∧ Nsq.PyNsqApi.create flow "" = Nsq.NsqCall.newNsqApi flow
    ∧ (cfg ≠ "" → Nsq.PyNsqApi.create flow cfg = Nsq.NsqCall.newNsqApiExt flow cfg) := by
  intro flow cfg
  refine ⟨rfl, rfl, fun h => ?_⟩
  simp [Nsq.PyNsqApi.create, h]

/-- Witness for C9 at a concrete non-empty configuration path. -/
theorem c9_constructor_factory_dispatch_witness :
    Nsq.PyNsqApi.create "./log/" "nsq.ini" = Nsq.NsqCall.newNsqApiExt "./log/" "nsq.ini" :=
  (c9_constructor_factory_dispatch "./log/" "nsq.ini").2.2 (by decide)

/-- C10: each of the four NSQ depth accessors returns exactly five
elements, element-wise equal to the first five entries of the
corresponding vendor array. -/
theorem c10_nsq_depth_accessors_five_levels :
    ∀ (f : Nsq.CHSNsqFutuDepthMarketDataField) (i : Fin 5),
      ((Nsq.CHSNsqFutuDepthMarketDataField.getBidPrice f).1.length = 5
        ∧ (Nsq.CHSNsqFutuDepthMarketDataField.getBidVolume f).1.length = 5
        ∧ (Nsq.CHSNsqFutuDepthMarketDataField.getAskPrice f).1.length = 5
        ∧ (Nsq.CHSNsqFutuDepthMarketDataField.getAskVolume f).1.length = 5)
    ∧ ((Nsq.CHSNsqFutuDepthMarketDataField.getBidPrice f).1.getD i.val 0 = f.BidPrice i.val
        ∧ (Nsq.CHSNsqFutuDepthMarketDataField.getBidVolume f).1.getD i.val 0 = f.BidVolume i.val
        ∧ (Nsq.CHSNsqFutuDepthMarketDataField.getAskPrice f).1.getD i.val 0 = f.AskPrice i.val
        ∧ (Nsq.CHSNsqFutuDepthMarketDataField.getAskVolume f).1.getD i.val 0 = f.AskVolume i.val) := by
  intro f i
  refine ⟨⟨rfl, rfl, rfl, rfl⟩, ?_⟩
  fin_cases i <;> exact ⟨rfl, rfl, rfl, rfl⟩

/-- C2: every session method of PyMdApi and PyNsqApi performs no vendor
call on a null handle, the int-returning ones then return -1, the void
ones do nothing and GetApiErrorMsg yields the empty string; on a live
handle each method returns exactly the value the vendor call returns. -/
theorem c2_session_methods_null_guard_and_passthrough :
    ∀ (v : Ctp.MdVendor) (w : Nsq.NsqVendor)
      (addr : String) (req : Ctp.CThostFtdcReqUserLoginField) (rid : Int)
      (syms : List CStr)
      (front lic safe pwd ssl sslpwd : String)
      (nreq : Nsq.CHSNsqReqUserLoginField) (err : Int)
      (exSz instSz : Nat) (contracts : List (CStr × CStr)) (ex : CStr),
      Ctp.PyMdApi.RegisterSpi none = []
    ∧ Ctp.PyMdApi.RegisterFront none addr = []
    ∧ Ctp.PyMdApi.Init none = []
    ∧ Ctp.PyMdApi.Join none = (-1, [])
    ∧ Ctp.PyMdApi.ReqUserLogin none req rid = (-1, [])
    ∧ Ctp.PyMdApi.SubscribeMarketData none syms = (-1, [])
    ∧ Nsq.PyNsqApi.RegisterSpi none = []
    ∧ Nsq.PyNsqApi.RegisterFront none front = (-1, [])
    ∧ Nsq.PyNsqApi.Init none lic safe pwd ssl sslpwd = (-1, [])
    ∧ Nsq.PyNsqApi.ReqUserLogin none nreq rid = (-1, [])
    ∧ Nsq.PyNsqApi.GetApiErrorMsg none err = ("", [])
    ∧ Nsq.PyNsqApi.ReqFutuDepthMarketDataSubscribe exSz instSz none contracts rid = (-1, [])
    ∧ Nsq.PyNsqApi.SubscribeMarket exSz instSz none ex rid = (-1, [])
    ∧ (Ctp.PyMdApi.Join (some v)).1 = v.joinRet
    ∧ (Ctp.PyMdApi.ReqUserLogin (some v) req rid).1 = v.reqUserLoginRet req rid
    ∧ (Ctp.PyMdApi.SubscribeMarketData (some v) syms).1
        = v.subscribeMarketDataRet syms syms.length
    ∧ (Nsq.PyNsqApi.RegisterFront (some w) front).1 = w.registerFrontRet front
    ∧ (Nsq.PyNsqApi.Init (some w) lic safe pwd ssl sslpwd).1
        = w.initRet lic safe pwd ssl sslpwd
    ∧ (Nsq.PyNsqApi.ReqUserLogin (some w) nreq rid).1 = w.reqUserLoginRet nreq rid
    ∧ (Nsq.PyNsqApi.GetApiErrorMsg (some w) err).1 = (w.getApiErrorMsgRet err).getD ""
    ∧ (Nsq.PyNsqApi.ReqFutuDepthMarketDataSubscribe exSz instSz (some w) contracts rid).1
        = w.reqFutuDepthMarketDataSubscribeRet
            (contracts.map (Nsq.mkSubReq exSz instSz)) (Int.ofNat contracts.length) rid
    ∧ (Nsq.PyNsqApi.SubscribeMarket exSz instSz (some w) ex rid).1
        = w.reqFutuDepthMarketDataSubscribeRet
            [{ Nsq.emptySubReq exSz instSz with
                 ExchangeID := copy_cstr (List.replicate exSz 0) ex }] 0 rid := by
  intros
  repeat' apply And.intro
  all_goals first
    | rfl
    | simp [Ctp.PyMdApi.SubscribeMarketData,
            Nsq.PyNsqApi.ReqFutuDepthMarketDataSubscribe, List.map_id',
            List.length_map]

/-- C4: the subscribe operations hand the vendor exactly one entry per
requested instrument and a count equal to the request list's length:
PyMdApi.SubscribeMarketData passes the symbol pointers and
`p_symbols.size()`, and PyNsqApi.ReqFutuDepthMarketDataSubscribe passes
one record per (exchange, instrument) pair, built from a zeroed record by
copying the first component into ExchangeID and the second into
InstrumentID, together with `(int)reqs.size()`. -/
theorem c4_subscribe_one_entry_per_instrument :
    ∀ (v : Ctp.MdVendor) (w : Nsq.NsqVendor) (syms : List CStr)
      (exSz instSz : Nat) (contracts : List (CStr × CStr)) (rid : Int),
      (Ctp.PyMdApi.SubscribeMarketData (some v) syms).2
        = [Ctp.MdCall.subscribeMarketData syms syms.length]
    ∧ (Nsq.PyNsqApi.ReqFutuDepthMarketDataSubscribe exSz instSz (some w) contracts rid).2
        = [Nsq.NsqCall.reqFutuDepthMarketDataSubscribe
             (contracts.map (Nsq.mkSubReq exSz instSz)) (Int.ofNat contracts.length) rid]
    ∧ (contracts.map (Nsq.mkSubReq exSz instSz)).length = contracts.length
    ∧ (∀ c : CStr × CStr,
         Nsq.mkSubReq exSz instSz c
           = { ExchangeID := copy_cstr (List.replicate exSz 0) c.1,
               InstrumentID := copy_cstr (List.replicate instSz 0) c.2 }) := by
  intros
  refine ⟨?_, ?_, ?_, fun c => rfl⟩
  · simp [Ctp.PyMdApi.SubscribeMarketData, List.map_id']
  · simp [Nsq.PyNsqApi.ReqFutuDepthMarketDataSubscribe, List.length_map]
  · simp [List.length_map]

/-- C8: every read-only accessor of the bound record types returns the
current value of the corresponding vendor struct field, converting
char-array fields to the bytes up to their first NUL, and returns the
record itself unchanged. -/
theorem c8_readonly_accessors_project_fields :
    ∀ (a : Ctp.CThostFtdcRspInfoField) (b : Ctp.CThostFtdcRspUserLoginField)
      (c : Ctp.CThostFtdcDepthMarketDataField) (d : Ctp.CThostFtdcSpecificInstrumentField)
      (e : Nsq.CHSNsqRspInfoField) (g : Nsq.CHSNsqRspUserLoginField)
      (h : Nsq.CHSNsqFutuDepthMarketDataField),
      Ctp.CThostFtdcRspInfoField.getErrorID a = (a.ErrorID, a)
    ∧ Ctp.CThostFtdcRspInfoField.getErrorMsg a
        = (a.ErrorMsg.takeWhile (fun x => x != 0), a)
    ∧ Ctp.CThostFtdcRspUserLoginField.getTradingDay b
        = (b.TradingDay.takeWhile (fun x => x != 0), b)
    ∧ Ctp.CThostFtdcRspUserLoginField.getLoginTime b
        = (b.LoginTime.takeWhile (fun x => x != 0), b)
    ∧ Ctp.CThostFtdcRspUserLoginField.getBrokerID b
        = (b.BrokerID.takeWhile (fun x => x != 0), b)
    ∧ Ctp.CThostFtdcRspUserLoginField.getUserID b
        = (b.UserID.takeWhile (fun x => x != 0), b)
    ∧ Ctp.CThostFtdcRspUserLoginField.getFrontID b = (b.FrontID, b)
    ∧ Ctp.CThostFtdcRspUserLoginField.getSessionID b = (b.SessionID, b)
    ∧ Ctp.CThostFtdcDepthMarketDataField.getTradingDay c
        = (c.TradingDay.takeWhile (fun x => x != 0), c)
    ∧ Ctp.CThostFtdcDepthMarketDataField.getInstrumentID c
        = (c.InstrumentID.takeWhile (fun x => x != 0), c)
    ∧ Ctp.CThostFtdcDepthMarketDataField.getExchangeID c
        = (c.ExchangeID.takeWhile (fun x => x != 0), c)
    ∧ Ctp.CThostFtdcDepthMarketDataField.getLastPrice c = (c.LastPrice, c)
    ∧ Ctp.CThostFtdcDepthMarketDataField.getPreSettlementPrice c = (c.PreSettlementPrice, c)
    ∧ Ctp.CThostFtdcDepthMarketDataField.getPreClosePrice c = (c.PreClosePrice, c)
    ∧ Ctp.CThostFtdcDepthMarketDataField.getPreOpenInterest c = (c.PreOpenInterest, c)
    ∧ Ctp.CThostFtdcDepthMarketDataField.getOpenPrice c = (c.OpenPrice, c)
    ∧ Ctp.CThostFtdcDepthMarketDataField.getHighestPrice c = (c.HighestPrice, c)
    ∧ Ctp.CThostFtdcDepthMarketDataField.getLowestPrice c = (c.LowestPrice, c)
    ∧ Ctp.CThostFtdcDepthMarketDataField.getVolume c = (c.Volume, c)
    ∧ Ctp.CThostFtdcDepthMarketDataField.getTurnover c = (c.Turnover, c)
    ∧ Ctp.CThostFtdcDepthMarketDataField.getOpenInterest c = (c.OpenInterest, c)
    ∧ Ctp.CThostFtdcDepthMarketDataField.getClosePrice c = (c.ClosePrice, c)
    ∧ Ctp.CThostFtdcDepthMarketDataField.getSettlementPrice c = (c.SettlementPrice, c)
    ∧ Ctp.CThostFtdcDepthMarketDataField.getUpperLimitPrice c = (c.UpperLimitPrice, c)
    ∧ Ctp.CThostFtdcDepthMarketDataField.getLowerLimitPrice c = (c.LowerLimitPrice, c)
    ∧ Ctp.CThostFtdcDepthMarketDataField.getUpdateTime c
        = (c.UpdateTime.takeWhile (fun x => x != 0), c)
    ∧ Ctp.CThostFtdcDepthMarketDataField.getUpdateMillisec c = (c.UpdateMillisec, c)
    ∧ Ctp.CThostFtdcDepthMarketDataField.getBidPrice1 c = (c.BidPrice1, c)
    ∧ Ctp.CThostFtdcDepthMarketDataField.getBidVolume1 c = (c.BidVolume1, c)
    ∧ Ctp.CThostFtdcDepthMarketDataField.getAskPrice1 c = (c.AskPrice1, c)
    ∧ Ctp.CThostFtdcDepthMarketDataField.getAskVolume1 c = (c.AskVolume1, c)
    ∧ Ctp.CThostFtdcDepthMarketDataField.getAveragePrice c = (c.AveragePrice, c)
    ∧ Ctp.CThostFtdcDepthMarketDataField.getActionDay c
        = (c.ActionDay.takeWhile (fun x => x != 0), c)
    ∧ Ctp.CThostFtdcSpecificInstrumentField.getInstrumentID d
        = (d.InstrumentID.takeWhile (fun x => x != 0), d)
    ∧ Nsq.CHSNsqRspInfoField.getErrorID e = (e.ErrorID, e)
    ∧ Nsq.CHSNsqRspInfoField.getErrorMsg e
        = (e.ErrorMsg.takeWhile (fun x => x != 0), e)
    ∧ Nsq.CHSNsqRspUserLoginField.getBranchID g = (g.BranchID, g)
    ∧ Nsq.CHSNsqRspUserLoginField.getAccountID g
        = (g.AccountID.takeWhile (fun x => x != 0), g)
    ∧ Nsq.CHSNsqRspUserLoginField.getUserName g
        = (g.UserName.takeWhile (fun x => x != 0), g)
    ∧ Nsq.CHSNsqRspUserLoginField.getTradingDay g = (g.TradingDay, g)
    ∧ Nsq.CHSNsqFutuDepthMarketDataField.getTradingDay h = (h.TradingDay, h)
    ∧ Nsq.CHSNsqFutuDepthMarketDataField.getInstrumentID h
        = (h.InstrumentID.takeWhile (fun x => x != 0), h)
    ∧ Nsq.CHSNsqFutuDepthMarketDataField.getExchangeID h
        = (h.ExchangeID.takeWhile (fun x => x != 0), h)
    ∧ Nsq.CHSNsqFutuDepthMarketDataField.getLastPrice h = (h.LastPrice, h)
    ∧ Nsq.CHSNsqFutuDepthMarketDataField.getPreSettlementPrice h = (h.PreSettlementPrice, h)
    ∧ Nsq.CHSNsqFutuDepthMarketDataField.getPreClosePrice h = (h.PreClosePrice, h)
    ∧ Nsq.CHSNsqFutuDepthMarketDataField.getOpenPrice h = (h.OpenPrice, h)
    ∧ Nsq.CHSNsqFutuDepthMarketDataField.getHighestPrice h = (h.HighestPrice, h)
    ∧ Nsq.CHSNsqFutuDepthMarketDataField.getLowestPrice h = (h.LowestPrice, h)
    ∧ Nsq.CHSNsqFutuDepthMarketDataField.getTradeVolume h = (h.TradeVolume, h)
    ∧ Nsq.CHSNsqFutuDepthMarketDataField.getOpenInterest h = (h.OpenInterest, h)
    ∧ Nsq.CHSNsqFutuDepthMarketDataField.getUpdateTime h = (h.UpdateTime, h)
    ∧ Nsq.CHSNsqFutuDepthMarketDataField.getActionDay h = (h.ActionDay, h)
    ∧ Nsq.CHSNsqFutuDepthMarketDataField.getBidPrice h
        = ((List.range 5).map h.BidPrice, h)
    ∧ Nsq.CHSNsqFutuDepthMarketDataField.getBidVolume h
        = ((List.range 5).map h.BidVolume, h)
    ∧ Nsq.CHSNsqFutuDepthMarketDataField.getAskPrice h
        = ((List.range 5).map h.AskPrice, h)
    ∧ Nsq.CHSNsqFutuDepthMarketDataField.getAskVolume h
        = ((List.range 5).map h.AskVolume, h) := by
  intros
  repeat' apply And.intro
  all_goals rfl

/-- The receive buffer always has exactly the effective size: the vendor
writes in place into the `max_size`-byte std.string. -/
theorem recvBuffer_length (o : Exanic.RecvOracle) (m : Nat) :
    (Exanic.recvBuffer o m).length = m := by
  simp [Exanic.recvBuffer, List.length_append, List.length_take, List.length_replicate]
  omega

/-- An invalid capsule yields no pointer. -/
theorem capPtrIfValid_none (cap : Exanic.Capsule) (nm : String)
    (h : Exanic.PyCapsule_IsValid cap nm = false) :
    Exanic.capPtrIfValid cap nm = none := by
  unfold Exanic.capPtrIfValid
  by_cases hn : cap.name = nm
  · cases hp : cap.ptr with
    | none => simp [hn, hp]
    | some p => simp [Exanic.PyCapsule_IsValid, hn, hp] at h
  · simp [hn]

/-- A valid capsule yields its (non-NULL) stored pointer. -/
theorem capPtrIfValid_of_valid (cap : Exanic.Capsule) (nm : String)
    (h : Exanic.PyCapsule_IsValid cap nm = true) :
    ∃ p, Exanic.capPtrIfValid cap nm = some p := by
  unfold Exanic.PyCapsule_IsValid at h
  rw [Bool.and_eq_true] at h
  obtain ⟨h1, h2⟩ := h
  obtain ⟨p, hp⟩ := Option.isSome_iff_exists.mp h2
  exact ⟨p, by simp [Exanic.capPtrIfValid, of_decide_eq_true h1, hp]⟩

/-- C6: on a valid RX capsule, receive_frame treats max_size 0 as 2048,
returns empty bytes when the vendor length is nonpositive, returns
exactly the first n buffer bytes when the vendor returns n positive, and
every returned byte string fits within the effective max_size. -/
theorem c6_receive_frame_bounds :
    ∀ (o : Exanic.RecvOracle) (cap : Exanic.Capsule) (m : Nat),
      Exanic.PyCapsule_IsValid cap Exanic.CAPSULE_EXANIC_RX = true →
      Exanic.receive_frame o cap 0 = Exanic.receive_frame o cap 2048
    ∧ (m ≠ 0 →
        (o.retLen m ≤ 0 → (Exanic.receive_frame o cap m).1 = Except.ok [])
      ∧ (0 < o.retLen m →
          (Exanic.receive_frame o cap m).1
            = Except.ok ((Exanic.recvBuffer o m).take (o.retLen m).toNat))
      ∧ (∀ r, (Exanic.receive_frame o cap m).1 = Except.ok r → r.length ≤ m)) := by
  intro o cap m hv
  obtain ⟨p, hp⟩ := capPtrIfValid_of_valid cap Exanic.CAPSULE_EXANIC_RX hv
  refine ⟨by simp [Exanic.receive_frame, hp], fun hm => ⟨?_, ?_, ?_⟩⟩
  · intro hneg
    simp [Exanic.receive_frame, hp, hm, hneg]
  · intro hpos
    have hng : ¬ o.retLen m ≤ 0 := by omega
    simp [Exanic.receive_frame, hp, hm, hng]
  · intro r hr
    by_cases hn : o.retLen m ≤ 0
    · simp [Exanic.receive_frame, hp, hm, hn] at hr
      simp [hr]
    · simp [Exanic.receive_frame, hp, hm, hn] at hr
      rw [← hr]
      simp [List.length_take, recvBuffer_length]

/-- Witness for C6: a valid RX capsule, a vendor that reports 3 bytes. -/
theorem c6_receive_frame_bounds_witness :
    Exanic.receive_frame { retLen := fun _ => 3, written := fun _ => [10, 20, 30] }
        { name := "exanic_rx_t", ptr := some 5 } 0
      = Exanic.receive_frame { retLen := fun _ => 3, written := fun _ => [10, 20, 30] }
          { name := "exanic_rx_t", ptr := some 5 } 2048
  ∧ (Exanic.receive_frame { retLen := fun _ => 3, written := fun _ => [10, 20, 30] }
        { name := "exanic_rx_t", ptr := some 5 } 8).1
      = Except.ok ((Exanic.recvBuffer
          { retLen := fun _ => 3, written := fun _ => [10, 20, 30] } 8).take
            (Int.toNat 3)) :=
  ⟨(c6_receive_frame_bounds { retLen := fun _ => 3, written := fun _ => [10, 20, 30] }
      { name := "exanic_rx_t", ptr := some 5 } 8 (by decide)).1,
   (((c6_receive_frame_bounds { retLen := fun _ => 3, written := fun _ => [10, 20, 30] }
      { name := "exanic_rx_t", ptr := some 5 } 8 (by decide)).2 (by decide)).2.1 (by decide))⟩

/-- C7: the exanic functions never hand the vendor a pointer taken from an
invalid capsule: acquire_rx_buffer and receive_frame raise a runtime
error on an invalid capsule without any vendor call, the release
functions return silently in that case, and the acquire functions return
None exactly when the vendor acquire returns NULL and otherwise a capsule
of the expected name wrapping the vendor pointer. -/
theorem c7_no_vendor_call_from_invalid_capsule :
    ∀ (acqH : String → Option Nat) (acqR : Nat → Int → Int → Option Nat)
      (o : Exanic.RecvOracle) (cap : Exanic.Capsule) (dev : String)
      (port buf : Int) (m : Nat) (p r : Nat),
      (acqH dev = none → Exanic.acquire_handle acqH dev
          = (none, [Exanic.ExaCall.exanic_acquire_handle dev]))
    ∧ (acqH dev = some p → Exanic.acquire_handle acqH dev
          = (some { name := Exanic.CAPSULE_EXANIC, ptr := some p },
             [Exanic.ExaCall.exanic_acquire_handle dev]))
    ∧ (Exanic.PyCapsule_IsValid cap Exanic.CAPSULE_EXANIC = false →
          Exanic.acquire_rx_buffer acqR cap port buf
            = (Except.error "invalid exanic handle capsule", [])
        ∧ Exanic.release_handle cap = (cap, []))
    ∧ (Exanic.PyCapsule_IsValid cap Exanic.CAPSULE_EXANIC_RX = false →
          Exanic.receive_frame o cap m
            = (Except.error "invalid exanic_rx handle capsule", [])
        ∧ Exanic.release_rx_buffer cap = (cap, []))
    ∧ (Exanic.capPtrIfValid cap Exanic.CAPSULE_EXANIC = some p →
          (acqR p port buf = none →
            Exanic.acquire_rx_buffer acqR cap port buf = (Except.ok none,
              [Exanic.ExaCall.exanic_acquire_rx_buffer p port buf]))
        ∧ (acqR p port buf = some r →
            Exanic.acquire_rx_buffer acqR cap port buf
              = (Except.ok (some { name := Exanic.CAPSULE_EXANIC_RX, ptr := some r }),
                 [Exanic.ExaCall.exanic_acquire_rx_buffer p port buf]))) := by
  intro acqH acqR o cap dev port buf m p r
  refine ⟨?_, ?_, ?_, ?_, ?_⟩
  · intro h; simp [Exanic.acquire_handle, h]
  · intro h; simp [Exanic.acquire_handle, h]
  · intro h
    have hc := capPtrIfValid_none cap Exanic.CAPSULE_EXANIC h
    exact ⟨by simp [Exanic.acquire_rx_buffer, hc], by simp [Exanic.release_handle, hc]⟩
  · intro h
    have hc := capPtrIfValid_none cap Exanic.CAPSULE_EXANIC_RX h
    exact ⟨by simp [Exanic.receive_frame, hc], by simp [Exanic.release_rx_buffer, hc]⟩
  · intro hc
    exact ⟨fun h => by simp [Exanic.acquire_rx_buffer, hc, h],
           fun h => by simp [Exanic.acquire_rx_buffer, hc, h]⟩

/-- Witness for C7: a wrongly named capsule makes acquire_rx_buffer raise
without a vendor call, and release_rx_buffer on a capsule named
"exanic_t" (not an RX capsule) returns silently without a vendor call. -/
theorem c7_no_vendor_call_from_invalid_capsule_witness :
    Exanic.acquire_rx_buffer (fun _ _ _ => some 9) { name := "wrong", ptr := some 3 } 0 0
      = (Except.error "invalid exanic handle capsule", [])
  ∧ Exanic.release_rx_buffer { name := "exanic_t", ptr := some 3 }
      = ({ name := "exanic_t", ptr := some 3 }, []) :=
  ⟨((c7_no_vendor_call_from_invalid_capsule (fun _ => none) (fun _ _ _ => some 9)
      { retLen := fun _ => 0, written := fun _ => [] } { name := "wrong", ptr := some 3 }
      "exanic0" 0 0 0 1 1).2.2.1 (by decide)).1,
   ((c7_no_vendor_call_from_invalid_capsule (fun _ => none) (fun _ _ _ => some 9)
      { retLen := fun _ => 0, written := fun _ => [] } { name := "exanic_t", ptr := some 3 }
      "exanic0" 0 0 0 1 1).2.2.2.1 (by decide)).2⟩
